import Mathlib

/-!
Verification of the job-dispatch, progress-aggregation and cancellation engine
of the Jellyfin animated-WebP preview generator, embedded shallowly from
`jellyfin_mp4_to_webp_gui.pyw`.  Real arithmetic of the Python program is
modelled over `ℚ`; machine behaviour that the claims do not touch (float
representation, wall-clock time, the GUI) is abstracted away.  External
effects (the ffprobe duration probe, the ffmpeg sampler, the filesystem) are
passed in as explicit oracle parameters so that the worker code becomes a
pure function of them.
-/

namespace JellyfinWebp

/-- Python truncation toward zero, as performed by the built-in `int(x)`
applied to a nonintegral number. -/
def pyInt (x : ℚ) : ℤ := if 0 ≤ x then ⌊x⌋ else ⌈x⌉

/-- `WorkerConfig` dataclass from the source (all numeric fields modelled
over `ℚ`; `fps`, `width`, `quality` and `interval_count` hold integral
values in the program). -/
structure WorkerConfig where
  fps : ℚ
  width : ℚ
  quality : ℚ
  interval_count : ℚ
  clip_length : ℚ
  bridge_percent : ℚ
  bridge_interval_abs : ℚ
  bridge_window : ℚ
deriving DecidableEq

/-- The bridge-interval selection of `process_video` (source lines 166-174):
`interval = duration / interval_count`; the percentage rule wins when
`bridge_percent > 0`, else the absolute interval when positive, else 0. -/
def bridge_interval (duration : ℚ) (config : WorkerConfig) : ℚ :=
  let interval := duration / config.interval_count
  if 0 < config.bridge_percent then interval * config.bridge_percent
  else if 0 < config.bridge_interval_abs then config.bridge_interval_abs
  else 0

/-- The frame estimate of `process_video` (source lines 176-183):
`main_frames = interval_count * clip_length * fps`,
`bridge_frames = (duration / bridge_interval) * bridge_window * fps` when the
bridge interval is positive, and
`expected_frames = max(1, int(main_frames + bridge_frames))`. -/
def expected_frames (duration : ℚ) (config : WorkerConfig) : ℤ :=
  let bi := bridge_interval duration config
  let main_frames := config.interval_count * config.clip_length * config.fps
  let bridge_frames :=
    if 0 < bi then (duration / bi) * config.bridge_window * config.fps else 0
  max 1 (pyInt (main_frames + bridge_frames))

/-- Main units of the sampling plan, as the spec words them. -/
def main_units (config : WorkerConfig) : ℚ :=
  config.interval_count * config.clip_length * config.fps

/-- Bridge units of the sampling plan, as the spec words them. -/
def bridge_units (duration : ℚ) (config : WorkerConfig) : ℚ :=
  if 0 < bridge_interval duration config then
    (duration / bridge_interval duration config) * config.bridge_window * config.fps
  else 0

/-- The expected unit count exactly as the spec claims it:
`max(1, round(main_units + bridge_units))`, rounding to the nearest
integer. -/
def expected_unit_count_claimed (duration : ℚ) (config : WorkerConfig) : ℤ :=
  max 1 (round (main_units config + bridge_units duration config))

/-- The expected unit count amended to what the code computes:
`max(1, trunc(main_units + bridge_units))`, truncating toward zero as
Python `int` does. -/
def expected_unit_count_amended (duration : ℚ) (config : WorkerConfig) : ℤ :=
  max 1 (pyInt (main_units config + bridge_units duration config))

/-- Configuration exhibiting the rounding/truncation divergence:
one interval of 0.37 s sampled at 10 fps, bridge sampling disabled. -/
def cfgTrunc : WorkerConfig :=
  { fps := 10, width := 480, quality := 50, interval_count := 1
    clip_length := 37/100, bridge_percent := 0, bridge_interval_abs := 0
    bridge_window := 3/100 }

/-- The spec example configuration: interval_count = 10, clip_length = 0.3,
rate = 10, bridge_percent = 0.05, bridge_window = 0.03. -/
def cfgSpecExample : WorkerConfig :=
  { fps := 10, width := 480, quality := 50, interval_count := 10
    clip_length := 3/10, bridge_percent := 1/20, bridge_interval_abs := 0
    bridge_window := 3/100 }

/-- C1 counterexample: at duration 1 with `cfgTrunc` the sum of units is
3.7; the code truncates to 3 while the claimed formula rounds to 4. -/
theorem expected_count_truncates_not_rounds :
    expected_frames 1 cfgTrunc = 3 ∧ expected_unit_count_claimed 1 cfgTrunc = 4 := by
  have hbi : bridge_interval 1 cfgTrunc = 0 := by
    norm_num [bridge_interval, cfgTrunc]
  constructor
  · simp only [expected_frames]
    rw [hbi]
    norm_num [cfgTrunc, pyInt]
  · simp only [expected_unit_count_claimed, bridge_units]
    rw [hbi]
    norm_num [main_units, cfgTrunc, round_eq]

/-- C1 (amended): for every duration D > 0 and config with
interval_count ≥ 1, the code's expected frame count equals
`max(1, trunc(main_units + bridge_units))` — the unit sum is truncated
toward zero (Python `int`), not rounded to nearest — and is always ≥ 1. -/
theorem expected_frames_eq_amended (duration : ℚ) (config : WorkerConfig)
    (hD : 0 < duration) (hic : 1 ≤ config.interval_count) :
    expected_frames duration config = expected_unit_count_amended duration config ∧
      1 ≤ expected_frames duration config := by
  refine ⟨rfl, ?_⟩
  exact le_max_left 1 _

/-- C1 witness: the amended formula evaluated at the spec's own worked
example (D = 100 with `cfgSpecExample`) gives exactly 90 units. -/
theorem expected_frames_eq_amended_witness :
    (expected_frames 100 cfgSpecExample = expected_unit_count_amended 100 cfgSpecExample ∧
      1 ≤ expected_frames 100 cfgSpecExample) ∧
      expected_frames 100 cfgSpecExample = 90 := by
  refine ⟨expected_frames_eq_amended 100 cfgSpecExample (by norm_num) (by norm_num [cfgSpecExample]), ?_⟩
  have hbi : bridge_interval 100 cfgSpecExample = 1/2 := by
    norm_num [bridge_interval, cfgSpecExample]
  simp only [expected_frames]
  rw [hbi]
  norm_num [cfgSpecExample, pyInt]

/-- C9: the bridge interval is `interval * bridge_percent` whenever
`bridge_percent > 0` (in particular the percentage rule takes priority even
when `bridge_interval_abs` is also positive); otherwise it is
`bridge_interval_abs` when that is positive; otherwise 0. -/
theorem bridge_interval_priority (duration : ℚ) (config : WorkerConfig) :
    (0 < config.bridge_percent →
      bridge_interval duration config =
        (duration / config.interval_count) * config.bridge_percent) ∧
    (¬ 0 < config.bridge_percent → 0 < config.bridge_interval_abs →
      bridge_interval duration config = config.bridge_interval_abs) ∧
    (¬ 0 < config.bridge_percent → ¬ 0 < config.bridge_interval_abs →
      bridge_interval duration config = 0) := by
  refine ⟨fun h1 => ?_, fun h1 h2 => ?_, fun h1 h2 => ?_⟩
  · simp [bridge_interval, h1]
  · simp [bridge_interval, h1, h2]
  · simp [bridge_interval, h1, h2]

/-- C9 witness: with bridge_percent = 0.05 and bridge_interval_abs = 7 both
positive, the percentage rule wins: interval 10 gives bridge interval 0.5. -/
theorem bridge_interval_priority_witness :
    bridge_interval 100
      { fps := 10, width := 480, quality := 50, interval_count := 10
        clip_length := 3/10, bridge_percent := 1/20, bridge_interval_abs := 7
        bridge_window := 3/100 } =
      ((100 : ℚ) / 10) * (1/20) :=
  (bridge_interval_priority 100 _).1 (by norm_num)

/-- Outcome of one run of `get_video_duration`: the returned value, the
number of probe invocations made, and the number of 0.5 s sleeps taken. -/
structure ProbeRun where
  result : Option ℚ
  attempts : ℕ
  sleeps : ℕ
deriving DecidableEq

/-- The retry loop of `get_video_duration` (source lines 100-109).  The
probe oracle maps the attempt index to `some v` (nonempty, float-parseable
stdout with value `v`) or `none` (empty or unparseable stdout).  An attempt
that does not return falls through to `time.sleep(0.5)` and the next
iteration. -/
def get_video_duration_loop (probe : ℕ → Option ℚ) : ℕ → ℕ → ℕ → ProbeRun
  | 0, made, slept => ⟨none, made, slept⟩
  | n + 1, made, slept =>
    match probe made with
    | some v => ⟨some v, made + 1, slept⟩
    | none => get_video_duration_loop probe n (made + 1) (slept + 1)

/-- `get_video_duration` (source lines 84-109): up to `retries` probe
attempts (the source default is 3), returning the first parseable value,
else `none`. -/
def get_video_duration (probe : ℕ → Option ℚ) (retries : ℕ) : ProbeRun :=
  get_video_duration_loop probe retries 0 0

/-- C4 counterexample: a probe whose stdout parses to the value 0 is
returned as a success on the very first attempt — a zero parsed value IS
accepted, contradicting the claim that only positive results are. -/
theorem zero_duration_accepted :
    get_video_duration (fun _ => some 0) 3 = ⟨some 0, 1, 0⟩ := rfl

/-- C4 (amended): `get_video_duration` makes at most 3 probe attempts,
returns the first parseable numeric result whatever its sign (sleeping 0.5 s
after each attempt that does not return), and returns `none` after 3
attempts when every attempt fails or is unparseable; a probe that fails
twice then succeeds yields the successful value after exactly 3 attempts. -/
theorem get_video_duration_retry_contract (probe : ℕ → Option ℚ) :
    (get_video_duration probe 3).attempts ≤ 3 ∧
    (probe 0 = none → probe 1 = none → probe 2 = none →
      get_video_duration probe 3 = ⟨none, 3, 3⟩) ∧
    (∀ v, probe 0 = some v → get_video_duration probe 3 = ⟨some v, 1, 0⟩) ∧
    (∀ v, probe 0 = none → probe 1 = some v →
      get_video_duration probe 3 = ⟨some v, 2, 1⟩) ∧
    (∀ v, probe 0 = none → probe 1 = none → probe 2 = some v →
      get_video_duration probe 3 = ⟨some v, 3, 2⟩) := by
  refine ⟨?_, fun h0 h1 h2 => ?_, fun v h0 => ?_, fun v h0 h1 => ?_,
    fun v h0 h1 h2 => ?_⟩
  · cases h0 : probe 0 <;> cases h1 : probe 1 <;> cases h2 : probe 2 <;>
      simp [get_video_duration, get_video_duration_loop, h0, h1, h2]
  · simp [get_video_duration, get_video_duration_loop, h0, h1, h2]
  · simp [get_video_duration, get_video_duration_loop, h0]
  · simp [get_video_duration, get_video_duration_loop, h0, h1]
  · simp [get_video_duration, get_video_duration_loop, h0, h1, h2]

/-- C4 witness: the fail-twice-then-succeed stub from the spec, succeeding
with 85/2 on its third attempt. -/
theorem get_video_duration_retry_contract_witness :
    get_video_duration (fun n => if n = 2 then some (85/2) else none) 3 =
      ⟨some (85/2), 3, 2⟩ :=
  (get_video_duration_retry_contract
      (fun n => if n = 2 then some (85/2) else none)).2.2.2.2 (85/2)
    (by simp) (by simp) (by simp)

/-- `JobComplete` dataclass from the source, restricted to the fields the
claims are about (worker id, video name and the deleted-file list are
passed through unchanged). -/
structure JobComplete where
  success : Bool
  message : String
  video_duration : ℚ
deriving DecidableEq

/-- Outcome of the duration resolution inside `process_video`:
the probe call can return a value, return `None`, or raise. -/
inductive DurResult
  | ok (v : ℚ)
  | failed
  | raises
deriving DecidableEq

/-- Outcome of the ffmpeg sampler invocation: zero exit, nonzero exit, or
an exception (whose `str(e)` is `msg`) raised inside the try block. -/
inductive SamplerRun
  | exitZero
  | exitNonzero
  | raises (msg : String)
deriving DecidableEq

/-- The external world one `process_video` call observes: whether the
output artifact already exists, what the duration probe does, and what the
sampler invocation does. -/
structure Env where
  output_exists : Bool
  duration_result : DurResult
  sampler : SamplerRun
deriving DecidableEq

/-- What one `process_video` call did: the `JobComplete` events it put on
the progress queue, whether it invoked the probe and the sampler, and
whether an exception escaped it. -/
structure PvOutcome where
  events : List JobComplete
  probe_invoked : Bool
  sampler_invoked : Bool
  escaped : Bool
deriving DecidableEq

/-- `process_video` (source lines 127-299), restricted to its completion
events.  The skip check precedes the duration probe; the probe call on
line 155 is NOT inside the try block starting on line 218, so a probe
exception escapes; sampler failures and exceptions are turned into failed
`JobComplete` events inside the try block. -/
def process_video (overwrite_existing : Bool) (video_duration : ℚ) (env : Env) :
    PvOutcome :=
  if env.output_exists && !overwrite_existing then
    ⟨[⟨true, "SKIP (exists)", video_duration⟩], false, false, false⟩
  else
    match env.duration_result with
    | .raises => ⟨[], true, false, true⟩
    | .failed => ⟨[⟨false, "Duration read failed", video_duration⟩], true, false, false⟩
    | .ok _ =>
      match env.sampler with
      | .exitZero =>
          ⟨[⟨true, if env.output_exists then "OK (overwritten)" else "OK",
              video_duration⟩], true, true, false⟩
      | .exitNonzero =>
          ⟨[⟨false, "ffmpeg error", video_duration⟩], true, true, false⟩
      | .raises msg => ⟨[⟨false, msg, video_duration⟩], true, true, false⟩

/-- One iteration of `worker_process` (source lines 305-316) on a popped
job: an exception escaping `process_video` is caught by the bare
`except Exception` of the worker loop, printed, and swallowed — only the
events already queued remain. -/
def worker_handle_job (overwrite_existing : Bool) (video_duration : ℚ)
    (env : Env) : List JobComplete :=
  (process_video overwrite_existing video_duration env).events

/-- C2 counterexample: when the duration probe raises on a non-skipped job,
the exception escapes `process_video` and the worker loop swallows it, so
ZERO result events are emitted for that job — not exactly one, and the
probe failure is never reported as a failed event. -/
theorem probe_exception_loses_result_event :
    (process_video false 0 ⟨false, .raises, .exitZero⟩).escaped = true ∧
      worker_handle_job false 0 ⟨false, .raises, .exitZero⟩ = [] := by
  constructor <;> rfl

/-- C2 (amended): exactly one `JobComplete` is emitted per dispatched job
whenever the duration probe does not raise on it (or the job is skipped
before the probe runs), and in those cases no exception escapes
`process_video`; when the probe raises on a non-skipped job, the exception
escapes `process_video`, is caught and logged at the worker-loop boundary,
and no result event at all is emitted for that job. -/
theorem one_result_event_unless_probe_raises (overwrite_existing : Bool)
    (video_duration : ℚ) (env : Env)
    (h : env.duration_result ≠ DurResult.raises ∨
      (env.output_exists = true ∧ overwrite_existing = false)) :
    (process_video overwrite_existing video_duration env).escaped = false ∧
      (worker_handle_job overwrite_existing video_duration env).length = 1 := by
  obtain ⟨oe, dr, sam⟩ := env
  cases oe <;> cases overwrite_existing <;> cases dr <;> cases sam <;>
    simp_all [process_video, worker_handle_job]

/-- C2 witness: a failed sampler run on a non-skipped job produces exactly
one result event and no escaping exception. -/
theorem one_result_event_unless_probe_raises_witness :
    (process_video false 7 ⟨false, .ok 12, .exitNonzero⟩).escaped = false ∧
      (worker_handle_job false 7 ⟨false, .ok 12, .exitNonzero⟩).length = 1 :=
  one_result_event_unless_probe_raises false 7 ⟨false, .ok 12, .exitNonzero⟩
    (Or.inl (by simp))

/-- C6: when the output artifact exists and the overwrite flag is false,
`process_video` emits exactly `JobComplete{success=true,
message="SKIP (exists)"}` carrying the job's known duration, invokes
neither the duration probe nor the sampler, and raises nothing. -/
theorem skip_without_invocation (video_duration : ℚ) (env : Env)
    (hex : env.output_exists = true) :
    process_video false video_duration env =
      ⟨[⟨true, "SKIP (exists)", video_duration⟩], false, false, false⟩ := by
  obtain ⟨oe, dr, sam⟩ := env
  subst hex
  rfl

/-- C6 witness: the skip outcome at a concrete environment whose probe
would raise and whose sampler would fail — neither is reached. -/
theorem skip_without_invocation_witness :
    process_video false 9 ⟨true, .raises, .exitNonzero⟩ =
      ⟨[⟨true, "SKIP (exists)", 9⟩], false, false, false⟩ :=
  skip_without_invocation 9 ⟨true, .raises, .exitNonzero⟩ rfl

/-- The draining branch of `monitor_progress` (source lines 784-811) folded
over the result events received while `is_stopping` is set: the counter is
incremented only when `msg.success and msg.message != "SKIP (exists)"`. -/
def drain_loop (completed : ℕ) : List JobComplete → ℕ
  | [] => completed
  | msg :: rest =>
      drain_loop
        (if msg.success = true ∧ msg.message ≠ "SKIP (exists)" then completed + 1
         else completed) rest

/-- C3 counterexample: while draining, a failed result event and a skipped
result event each leave `completed_videos` unchanged — a job in flight at
stop-time that fails or turns out already done does NOT count toward
completion, contradicting the claim that every result event increments the
counter. -/
theorem draining_skips_failed_and_skipped :
    drain_loop 0 [⟨false, "ffmpeg error", 0⟩] = 0 ∧
      drain_loop 0 [⟨true, "SKIP (exists)", 0⟩] = 0 := by
  constructor <;> rfl

/-- C3 (amended): while the pool is draining, a result event increments
`completed_videos` exactly when it is successful and its message is not
"SKIP (exists)"; over any sequence of received events the counter grows by
precisely the number of successful non-skip events. -/
theorem drain_loop_counts_successes (completed : ℕ) (msgs : List JobComplete) :
    drain_loop completed msgs =
      completed +
        msgs.countP (fun m => m.success && !(m.message == "SKIP (exists)")) := by
  induction msgs generalizing completed with
  | nil => simp [drain_loop]
  | cons msg rest ih =>
      rw [drain_loop, ih]
      by_cases h : msg.success = true ∧ msg.message ≠ "SKIP (exists)"
      · rw [if_pos h, List.countP_cons]
        have : (msg.success && !(msg.message == "SKIP (exists)")) = true := by
          simp [h.1, h.2]
        rw [if_pos this]
        omega
      · rw [if_neg h, List.countP_cons]
        have : (msg.success && !(msg.message == "SKIP (exists)")) = false := by
          rcases Decidable.not_and_iff_or_not.mp h with h1 | h1 <;> simp_all
        rw [this]
        simp

/-- `VideoJob` dataclass from the source (`video_path` and `base_path`
modelled as strings). -/
structure VideoJob where
  video_path : String
  index : ℕ
  total : ℕ
  base_path : String
  overwrite_existing : Bool
  video_duration : ℚ
deriving DecidableEq

/-- The queue-clearing loop of `stop_processing` (source lines 942-946):
`while not job_queue.empty(): job_queue.get_nowait()` removes every element
still queued, jobs and old sentinels alike (`none` is the poison pill). -/
def drain_queue : List (Option VideoJob) → List (Option VideoJob)
  | [] => []
  | _ :: rest => drain_queue rest

/-- The queue state `stop_processing` leaves behind (source lines 942-950):
the drained queue followed by one freshly enqueued `None` poison pill per
worker. -/
def stop_processing_queue (queue : List (Option VideoJob)) (num_workers : ℕ) :
    List (Option VideoJob) :=
  drain_queue queue ++ List.replicate num_workers none

/-- The cancelled count reported by `_finish_stop` (source lines 954-959):
`cancelled = total - completed`. -/
def finish_stop_cancelled (total_videos completed_videos : ℕ) : ℕ :=
  total_videos - completed_videos

/-- C5: after a stop request the queue holds zero ordinary jobs and exactly
one sentinel per worker (so it has exactly `num_workers` elements), and the
terminal report satisfies `cancelled + completed = total`. -/
theorem stop_drains_jobs_and_enqueues_sentinels (queue : List (Option VideoJob))
    (num_workers total_videos completed_videos : ℕ)
    (h : completed_videos ≤ total_videos) :
    (stop_processing_queue queue num_workers).countP (fun x => x.isSome) = 0 ∧
      (stop_processing_queue queue num_workers).countP (fun x => x.isNone) =
        num_workers ∧
      (stop_processing_queue queue num_workers).length = num_workers ∧
      finish_stop_cancelled total_videos completed_videos + completed_videos =
        total_videos := by
  have hd : drain_queue queue = [] := by
    induction queue with
    | nil => rfl
    | cons a rest ih => exact ih
  have hrep : ∀ n : ℕ,
      (List.replicate n (none : Option VideoJob)).countP (fun x => x.isSome) = 0 ∧
      (List.replicate n (none : Option VideoJob)).countP (fun x => x.isNone) = n := by
    intro n
    induction n with
    | zero => exact ⟨rfl, rfl⟩
    | succ k ih =>
        rw [List.replicate_succ]
        refine ⟨?_, ?_⟩ <;> rw [List.countP_cons] <;> simp [ih.1, ih.2]
  refine ⟨?_, ?_, ?_, ?_⟩
  · rw [stop_processing_queue, hd, List.nil_append]
    exact (hrep num_workers).1
  · rw [stop_processing_queue, hd, List.nil_append]
    exact (hrep num_workers).2
  · rw [stop_processing_queue, hd, List.nil_append, List.length_replicate]
  · rw [finish_stop_cancelled]
    omega

/-- C5 witness: stopping a two-worker pool with one job and two old
sentinels still queued, five of seven videos completed. -/
theorem stop_drains_jobs_and_enqueues_sentinels_witness :
    (stop_processing_queue [some ⟨"a.mp4", 1, 7, "lib", false, 60⟩, none, none] 2).countP
        (fun x => x.isSome) = 0 ∧
      (stop_processing_queue [some ⟨"a.mp4", 1, 7, "lib", false, 60⟩, none, none] 2).countP
        (fun x => x.isNone) = 2 ∧
      (stop_processing_queue [some ⟨"a.mp4", 1, 7, "lib", false, 60⟩, none, none] 2).length
        = 2 ∧
      finish_stop_cancelled 7 5 + 5 = 7 :=
  stop_drains_jobs_and_enqueues_sentinels
    [some ⟨"a.mp4", 1, 7, "lib", false, 60⟩, none, none] 2 7 5 (by omega)

/-- What the overall-progress line of `monitor_progress` reports for the
batch ETA. -/
inductive EtaDisplay
  | calculating
  | numeric (eta_seconds : ℚ) (speed_multiplier : ℚ)
deriving DecidableEq

/-- The batch-ETA branch of `monitor_progress` (source lines 841-876):
warm-up requires at least 2 completed videos or 10 s elapsed; past warm-up
the duration-weighted rate `processed / elapsed` must be positive, and the
numeric ETA is `remaining_duration / rate`. -/
def monitor_eta (completed_videos : ℕ)
    (elapsed_since_start processed_video_duration total_video_duration : ℚ) :
    EtaDisplay :=
  let remaining_duration := total_video_duration - processed_video_duration
  if 2 ≤ completed_videos ∨ 10 ≤ elapsed_since_start then
    let processing_rate := processed_video_duration / elapsed_since_start
    if 0 < processing_rate then
      EtaDisplay.numeric (remaining_duration / processing_rate) processing_rate
    else EtaDisplay.calculating
  else EtaDisplay.calculating

/-- C7: the coordinator reports a numeric batch ETA exactly when the
warm-up condition (≥ 2 completed videos or ≥ 10 s elapsed) holds and the
processing rate is positive; before warm-up, or at rate 0 past warm-up, it
reports "calculating"; the numeric value is
`(total_duration - processed_duration) / rate`. -/
theorem eta_gating (completed_videos : ℕ) (elapsed processed total : ℚ) :
    (¬ (2 ≤ completed_videos ∨ 10 ≤ elapsed) →
      monitor_eta completed_videos elapsed processed total =
        EtaDisplay.calculating) ∧
    ((2 ≤ completed_videos ∨ 10 ≤ elapsed) → 0 < processed / elapsed →
      monitor_eta completed_videos elapsed processed total =
        EtaDisplay.numeric ((total - processed) / (processed / elapsed))
          (processed / elapsed)) ∧
    ((2 ≤ completed_videos ∨ 10 ≤ elapsed) → processed / elapsed = 0 →
      monitor_eta completed_videos elapsed processed total =
        EtaDisplay.calculating) := by
  refine ⟨fun h => ?_, fun h hr => ?_, fun h hr => ?_⟩
  · simp [monitor_eta, h]
  · simp [monitor_eta, h, hr]
  · simp [monitor_eta, h, hr]

/-- C7 witness: two completed videos, 5 s elapsed, 50 s of 200 s of source
processed — a numeric ETA with rate 10 and remaining 150/10. -/
theorem eta_gating_witness :
    monitor_eta 2 5 50 200 =
      EtaDisplay.numeric ((200 - 50) / ((50 : ℚ) / 5)) ((50 : ℚ) / 5) :=
  (eta_gating 2 5 50 200).2.1 (Or.inl (by norm_num)) (by norm_num)

/-- Two-digit zero-padded decimal field, as `time.strftime` renders each
component of "%H:%M:%S". -/
def two_digits (n : ℕ) : String := (if n < 10 then "0" else "") ++ toString n

/-- `time.strftime("%H:%M:%S", time.gmtime(t))` for a nonnegative number of
seconds: hours wrap at 24 as the hour-of-day field does. -/
def format_hms (t : ℕ) : String :=
  two_digits (t / 3600 % 24) ++ ":" ++ two_digits (t % 3600 / 60) ++ ":" ++
    two_digits (t % 60)

/-- `ProgressUpdate` dataclass from the source. -/
structure ProgressUpdate where
  worker_id : ℕ
  video_name : String
  progress : ℚ
  eta : String
  fps : ℚ
  current_frame : ℤ
  total_frames : ℤ
deriving DecidableEq

/-- The progress event built for one parsed `frame=` status line of the
sampler (source lines 241-263): `percent = min(100, current/expected*100)`,
`speed = current/elapsed` when wall time is positive else 0,
`eta = int(max(0, expected-current)/speed)` when speed is positive else 0,
rendered through `strftime("%H:%M:%S", gmtime(eta))`. -/
def frame_progress_update (worker_id : ℕ) (video_name : String)
    (current_frame total_frames : ℤ) (elapsed : ℚ) : ProgressUpdate :=
  let percent := min 100 (((current_frame : ℚ) / (total_frames : ℚ)) * 100)
  let speed := if 0 < elapsed then (current_frame : ℚ) / elapsed else 0
  let remaining_frames : ℤ := max 0 (total_frames - current_frame)
  let eta : ℤ := if 0 < speed then pyInt ((remaining_frames : ℚ) / speed) else 0
  ⟨worker_id, video_name, percent, format_hms eta.toNat, speed, current_frame,
    total_frames⟩

/-- C8 counterexample: at rate 0 (no frame yet after 5 s) the emitted event
carries the NUMERIC zero duration "00:00:00" as its ETA, not an "unknown"
representation (the GUI's unknown marker is "--:--:--"). -/
theorem zero_rate_eta_is_zero_duration :
    (frame_progress_update 1 "clip.mp4" 0 10 5).fps = 0 ∧
      (frame_progress_update 1 "clip.mp4" 0 10 5).eta = "00:00:00" := by
  constructor
  · norm_num [frame_progress_update]
  · norm_num [frame_progress_update]
    rfl

/-- C8 (amended): each parsed status line yields a progress event with
`percent = min(100, 100 * current/expected)`; when the instantaneous rate
is positive the ETA is `trunc(max(0, expected - current) / rate)` formatted
as a duration, and when the rate is 0 the ETA is the formatted ZERO
duration ("00:00:00"), not an "unknown" representation. -/
theorem progress_update_formulas (worker_id : ℕ) (video_name : String)
    (current_frame total_frames : ℤ) (elapsed : ℚ) :
    (frame_progress_update worker_id video_name current_frame total_frames
        elapsed).progress =
      min 100 (100 * ((current_frame : ℚ) / (total_frames : ℚ))) ∧
    (0 < (frame_progress_update worker_id video_name current_frame total_frames
        elapsed).fps →
      (frame_progress_update worker_id video_name current_frame total_frames
          elapsed).eta =
        format_hms (pyInt (((max 0 (total_frames - current_frame) : ℤ) : ℚ) /
          (frame_progress_update worker_id video_name current_frame total_frames
            elapsed).fps)).toNat) ∧
    ((frame_progress_update worker_id video_name current_frame total_frames
        elapsed).fps = 0 →
      (frame_progress_update worker_id video_name current_frame total_frames
          elapsed).eta = format_hms 0) := by
  refine ⟨?_, fun h => ?_, fun h => ?_⟩
  · simp only [frame_progress_update]
    rw [mul_comm]
  · simp only [frame_progress_update] at h ⊢
    rw [if_pos h]
  · simp only [frame_progress_update] at h ⊢
    rw [h]
    norm_num

/-- C8 witness: 5 of 10 frames after 2 s gives rate 5/2 and a one-second
positive-rate ETA, evaluated through the amended formulas. -/
theorem progress_update_formulas_witness :
    (frame_progress_update 1 "clip.mp4" 5 10 2).progress =
      min 100 (100 * ((5 : ℚ) / (10 : ℚ))) ∧
      (frame_progress_update 1 "clip.mp4" 5 10 2).eta =
        format_hms (pyInt (((max 0 ((10 : ℤ) - 5) : ℤ) : ℚ) /
          (frame_progress_update 1 "clip.mp4" 5 10 2).fps)).toNat :=
  ⟨(progress_update_formulas 1 "clip.mp4" 5 10 2).1,
    (progress_update_formulas 1 "clip.mp4" 5 10 2).2.1
      (by norm_num [frame_progress_update])⟩

/-- One iteration of the duration pre-pass of `_scan_videos_and_start`
(source lines 694-698): a parsed duration is cached and added to the total
only when it is truthy (`if duration:` — nonzero); a failed probe changes
nothing. -/
def scan_step (probe : String → Option ℚ) (acc : List (String × ℚ) × ℚ)
    (video : String) : List (String × ℚ) × ℚ :=
  match probe video with
  | some d => if d ≠ 0 then (acc.1 ++ [(video, d)], acc.2 + d) else acc
  | none => acc

/-- The full duration pre-pass over the scanned files: the
`video_durations` cache and `total_video_duration`. -/
def scan_videos (probe : String → Option ℚ) (files : List String) :
    List (String × ℚ) × ℚ :=
  files.foldl (scan_step probe) ([], 0)

/-- `self.video_durations.get(str(video), 0)` (source line 740). -/
def dict_get (cache : List (String × ℚ)) (key : String) : ℚ :=
  match cache.find? (fun p => p.1 == key) with
  | some p => p.2
  | none => 0

/-- The contribution of one file to `total_video_duration`. -/
def contrib (probe : String → Option ℚ) (video : String) : ℚ :=
  match probe video with
  | some d => if d ≠ 0 then d else 0
  | none => 0

/-- The job list built by `_finalize_scan_and_start` (source lines
739-748): one `VideoJob` per scanned file, 1-based index, with the cached
duration or 0 as the default. -/
def build_jobs (probe : String → Option ℚ) (files : List String)
    (base : String) (overwrite_flag : Bool) : List VideoJob :=
  let cache := (scan_videos probe files).1
  files.enum.map (fun p =>
    ⟨p.2, p.1 + 1, files.length, base, overwrite_flag, dict_get cache p.2⟩)

/-- Every cache entry produced by the pre-pass comes from a successful,
nonzero probe. -/
theorem scan_cache_mem (probe : String → Option ℚ) (files : List String)
    (init : List (String × ℚ) × ℚ) (p : String × ℚ)
    (hp : p ∈ (files.foldl (scan_step probe) init).1) :
    p ∈ init.1 ∨ probe p.1 = some p.2 := by
  induction files generalizing init with
  | nil => exact Or.inl hp
  | cons v rest ih =>
      rcases ih (scan_step probe init v) hp with h | h
      · rw [scan_step] at h
        cases hpv : probe v with
        | none => rw [hpv] at h; exact Or.inl h
        | some d =>
            rw [hpv] at h
            dsimp only at h
            by_cases hd : d ≠ 0
            · rw [if_pos hd] at h
              rcases List.mem_append.mp h with h2 | h2
              · exact Or.inl h2
              · rw [List.mem_singleton] at h2
                subst h2
                exact Or.inr hpv
            · rw [if_neg hd] at h; exact Or.inl h
      · exact Or.inr h

/-- A file whose probe failed is absent from the cache, so its dictionary
lookup yields the default 0. -/
theorem dict_get_failed_probe (probe : String → Option ℚ) (files : List String)
    (f : String) (hf : probe f = none) :
    dict_get (scan_videos probe files).1 f = 0 := by
  rw [dict_get]
  cases hfind : (scan_videos probe files).1.find? (fun p => p.1 == f) with
  | none => rfl
  | some p =>
      exfalso
      have hmem := List.mem_of_find?_eq_some hfind
      have hkey : p.1 = f := by
        have := List.find?_some hfind
        simpa using this
      rcases scan_cache_mem probe files ([], 0) p hmem with h | h
      · simp at h
      · rw [hkey, hf] at h
        exact Option.noConfusion h

/-- The pre-pass total is the sum of the per-file contributions. -/
theorem scan_total (probe : String → Option ℚ) (files : List String) :
    ∀ init : List (String × ℚ) × ℚ,
      (files.foldl (scan_step probe) init).2 =
        init.2 + (files.map (contrib probe)).sum := by
  induction files with
  | nil => intro init; simp
  | cons v rest ih =>
      intro init
      rw [List.foldl_cons, ih, List.map_cons, List.sum_cons]
      have hstep : (scan_step probe init v).2 = init.2 + contrib probe v := by
        rw [scan_step, contrib]
        cases probe v with
        | none => simp
        | some d =>
            dsimp only
            by_cases hd : d ≠ 0
            · rw [if_pos hd, if_pos hd]
            · rw [if_neg hd, if_neg hd]; simp
      rw [hstep]
      ring

/-- C10: a file whose pre-pass probe fails still gets a job enqueued — one
job per scanned file — that job carries known duration 0, and the file
contributes 0 to the duration total used for ETA weighting. -/
theorem prepass_probe_failure_tolerated (probe : String → Option ℚ)
    (files : List String) (base : String) (overwrite_flag : Bool) (f : String)
    (hf : probe f = none) :
    (build_jobs probe files base overwrite_flag).length = files.length ∧
      (∀ j ∈ build_jobs probe files base overwrite_flag, j.video_path = f →
        j.video_duration = 0) ∧
      (scan_videos probe files).2 = (files.map (contrib probe)).sum ∧
      contrib probe f = 0 := by
  refine ⟨?_, ?_, ?_, ?_⟩
  · simp [build_jobs]
  · intro j hj hpath
    simp only [build_jobs, List.mem_map] at hj
    obtain ⟨p, hp, rfl⟩ := hj
    dsimp only at hpath ⊢
    rw [hpath]
    exact dict_get_failed_probe probe files f hf
  · rw [scan_videos, scan_total probe files ([], 0)]
    simp
  · rw [contrib, hf]

/-- C10 witness: two files, the first one's probe fails — two jobs are
still built, the first job's duration is 0, and the total is the second
file's 60 s alone. -/
theorem prepass_probe_failure_tolerated_witness :
    (build_jobs (fun s => if s == "a.mp4" then none else some 60)
        ["a.mp4", "b.mp4"] "lib" false).length = 2 ∧
      (∀ j ∈ build_jobs (fun s => if s == "a.mp4" then none else some 60)
          ["a.mp4", "b.mp4"] "lib" false, j.video_path = "a.mp4" →
        j.video_duration = 0) ∧
      (scan_videos (fun s => if s == "a.mp4" then none else some 60)
          ["a.mp4", "b.mp4"]).2 =
        ((["a.mp4", "b.mp4"] : List String).map
          (contrib (fun s => if s == "a.mp4" then none else some 60))).sum ∧
      contrib (fun s => if s == "a.mp4" then none else some 60) "a.mp4" = 0 := by
  have h := prepass_probe_failure_tolerated
    (fun s => if s == "a.mp4" then none else some 60) ["a.mp4", "b.mp4"]
    "lib" false "a.mp4" (by rfl)
  exact ⟨by simpa using h.1, h.2.1, h.2.2.1, h.2.2.2⟩

end JellyfinWebp
